import Mathlib

/-!
Verification development for the observability correlation layer of the
app-obs/example-services repository.

The Go sources embedded here are:
* src/frontend/observability/trace.go and src/product/observability/trace.go
  (the `Span`/`Trace` wrappers: `Trace.Start`, `Span.End`, ambient-context
  save/restore through the `Observability` holder),
* src/frontend-service/observability/log.go and src/product/observability/log.go
  (the `Log` wrapper and the two `APMHandler.Handle` variants),
* src/frontend-service/main.go (`getTraceID`/`getSpanID`/`getTraceSpanInfo`),
* src/README.md (`CtxWithObs`/`ObsFromCtx`),
* the `Observability` holder (`Context`/`SetContext`) from
  src/frontend-service/service.go.

The OpenTelemetry SDK primitives the wrappers delegate to (tracer.Start,
span.End/AddEvent/RecordError/SetStatus) are not part of the repository
source; they are modelled from the spec (sections 3, 4.1, 4.2, 4.3), as
marked on each such definition.
-/

/-- Trace/span identifier pair carried by a context (the OTel SpanContext:
trace id plus span id, immutable once created). -/
structure SpanContext where
  traceID : Nat
  spanID : Nat
deriving DecidableEq, Repr

/-- Log levels used by the services (slog Debug/Info/Warn/Error). -/
inductive Level where
  | debug
  | info
  | warn
  | error
deriving DecidableEq, Repr

/-- Numeric slog levels (Debug = -4, Info = 0, Warn = 4, Error = 8), shifted
into Nat; only the ordering matters (product handler compares levels). -/
def Level.toNat : Level → Nat
  | .debug => 0
  | .info => 4
  | .warn => 8
  | .error => 12

/-- Value of a structured log field. `err` is a value of Go interface type
`error` (carrying its Error() text), which the handlers detect with a type
assertion; `str` is any other value, rendered by Value.String(). -/
inductive AttrValue where
  | str (s : String)
  | err (msg : String)
deriving DecidableEq, Repr

/-- The Value.String() rendering used when converting slog attributes to
span attributes. -/
def AttrValue.render : AttrValue → String
  | .str s => s
  | .err m => m

/-- One structured log field (slog.Attr): key and value. -/
structure Attr where
  key : String
  value : AttrValue
deriving DecidableEq, Repr

/-- A Log value (src log.go): it shares the Observability holder (whose
mutable context lives in `ObsState.ambient`) and wraps the base slog logger;
`withAttrs` are the fields accumulated through `With`. -/
structure Log where
  withAttrs : List Attr
deriving DecidableEq, Repr

/-- A Trace value as stored in the Observability bundle (`NewTrace` keeps the
obs pointer, modelled by the shared state, and `otel.Tracer(serviceName)`). -/
structure TraceHandle where
  serviceName : String
deriving DecidableEq, Repr

/-- The Observability bundle (src service.go): `Trace` and `Log` pointer
fields. `none` models a Go nil pointer, as in the zero value
`&Observability{}`. The mutable `ctx` field is `ObsState.ambient`. -/
structure Observability where
  traceP : Option TraceHandle
  logP : Option Log
deriving DecidableEq, Repr

/-- The zero-valued `&Observability{}` the README's ObsFromCtx constructs
when no handle is stored: both pointer fields are nil. -/
def zeroObservability : Observability := { traceP := none, logP := none }

/-- A Go context.Context value, restricted to the two slots this code reads:
the active span reference (trace.SpanFromContext) and the Observability
handle stored under the private obsKey (README CtxWithObs/ObsFromCtx).
Contexts are immutable values; "updating" one builds a new value. -/
structure GoContext where
  spanCtx : Option SpanContext
  obsPtr : Option Observability
deriving DecidableEq, Repr

/-- context.Background(): carries no span and no handle. -/
def GoContext.background : GoContext := { spanCtx := none, obsPtr := none }

/-- Terminal status of a span: unset until someone sets it, ok, or error with
a description. -/
inductive SpanStatus where
  | unset
  | ok
  | error (description : String)
deriving DecidableEq, Repr

/-- A timestamped span event: name plus attributes. -/
structure SpanEvent where
  name : String
  attrs : List Attr
deriving DecidableEq, Repr

/-- One RecordError call on a span: the error's description plus the event
attributes attached to it. -/
structure ErrorRecord where
  description : String
  attrs : List Attr
deriving DecidableEq, Repr

/-- The SDK-side record of one span. -/
structure SpanData where
  name : String
  parent : Option SpanContext
  sc : SpanContext
  recording : Bool
  ended : Bool
  status : SpanStatus
  events : List SpanEvent
  recordedErrors : List ErrorRecord
deriving DecidableEq, Repr

/-- One record written to the log sink (the wrapped base slog handler). -/
structure SinkRecord where
  level : Level
  msg : String
  attrs : List Attr
deriving DecidableEq, Repr

/-- Whole-system state for one request: the Observability holder's mutable
ambient context (its `ctx` field), the span store, a fresh-id source and the
log sink output. -/
structure ObsState where
  ambient : GoContext
  spans : List (Nat × SpanData)
  nextID : Nat
  sink : List SinkRecord
deriving DecidableEq, Repr

/-- Initial state: background ambient context, no spans, empty sink. -/
def initState : ObsState :=
  { ambient := GoContext.background, spans := [], nextID := 0, sink := [] }

/-- Find the span with the given id (first match wins, matching the fact that
a freshly started span shadows anything older). -/
def lookupSpan : List (Nat × SpanData) → Nat → Option SpanData
  | [], _ => none
  | (i, d) :: rest, sid => if i = sid then some d else lookupSpan rest sid

/-- Apply `f` to the (first) span with the given id. -/
def updateSpan : List (Nat × SpanData) → Nat → (SpanData → SpanData) → List (Nat × SpanData)
  | [], _, _ => []
  | (i, d) :: rest, sid, f =>
    if i = sid then (i, f d) :: rest else (i, d) :: updateSpan rest sid f

/-- Modelled from the spec: the OTel `tracer.Start` the wrappers delegate to
(spec 4.1, not in src). Creates a span whose parent linkage is exactly the
TraceContext of the supplied context; with no valid parent the span becomes a
root span in a fresh trace (normal behavior, not an error); returns a new
context carrying the new span. Total: it never fails. -/
def otelTracerStart (st : ObsState) (ctx : GoContext) (name : String) :
    ObsState × GoContext × Nat :=
  let sid := st.nextID
  let tid := match ctx.spanCtx with
    | some p => p.traceID
    | none => sid
  let sc : SpanContext := { traceID := tid, spanID := sid }
  let d : SpanData :=
    { name := name
      parent := ctx.spanCtx
      sc := sc
      recording := true
      ended := false
      status := .unset
      events := []
      recordedErrors := [] }
  ({ st with spans := (sid, d) :: st.spans, nextID := st.nextID + 1 },
   { ctx with spanCtx := some sc }, sid)

/-- Modelled from the spec: SDK span finalization performed by the inner
span.End (spec 4.2, not in src): sets the end time, stops recording, and if
the status was not already error it defaults to ok; a second End on the same
span is an idempotent no-op (the span no longer records). -/
def sdkSpanEnd (st : ObsState) (sid : Nat) : ObsState :=
  { st with spans := updateSpan st.spans sid (fun d =>
      if d.recording then
        { d with
          recording := false
          ended := true
          status := (match d.status with
            | .error m => .error m
            | _ => .ok) }
      else d) }

/-- trace.SpanFromContext combined with IsRecording: the id of the span the
context carries, provided that span is currently recording. -/
def activeRecordingSpan (st : ObsState) (ctx : GoContext) : Option Nat :=
  match ctx.spanCtx with
  | none => none
  | some sc =>
    match lookupSpan st.spans sc.spanID with
    | some d => if d.recording then some sc.spanID else none
    | none => none

/-- Modelled from the spec: span.AddEvent (spec 4.3, not in src): appends a
named event with attributes while the span records. -/
def spanAddEvent (st : ObsState) (sid : Nat) (name : String) (attrs : List Attr) : ObsState :=
  { st with spans := updateSpan st.spans sid (fun d =>
      if d.recording then { d with events := d.events ++ [⟨name, attrs⟩] } else d) }

/-- Modelled from the spec: span.RecordError (spec 4.3, not in src): records
the error's description with event attributes while the span records. -/
def spanRecordError (st : ObsState) (sid : Nat) (description : String)
    (attrs : List Attr) : ObsState :=
  { st with spans := updateSpan st.spans sid (fun d =>
      if d.recording then
        { d with recordedErrors := d.recordedErrors ++ [⟨description, attrs⟩] }
      else d) }

/-- Modelled from the spec: span.SetStatus with an error code (spec 4.3, not
in src), including the SDK precedence rule: a status of ok is never
downgraded, any other status becomes error with the given description. -/
def spanSetStatusError (st : ObsState) (sid : Nat) (description : String) : ObsState :=
  { st with spans := updateSpan st.spans sid (fun d =>
      if d.recording then
        match d.status with
        | .ok => d
        | _ => { d with status := .error description }
      else d) }

/-- The Span wrapper (src trace.go): the wrapped span plus the parent context
captured at Start time for restoration. -/
structure Span where
  sid : Nat
  parentCtx : GoContext
deriving DecidableEq, Repr

/-- src trace.go Span.End: first restore the parent context into the
Observability holder (s.obs.SetContext(s.parentCtx)), then end the wrapped
span. -/
def Span.End (st : ObsState) (s : Span) : ObsState :=
  sdkSpanEnd { st with ambient := s.parentCtx } s.sid

/-- src trace.go Trace.Start (and the identical product OTelTracer.Start):
capture the holder's current ambient context as the parent to restore, start
a span from the supplied context, install the new context in the holder, and
return the new context together with the wrapper span. -/
def Trace.Start (st : ObsState) (ctx : GoContext) (spanName : String) :
    ObsState × GoContext × Span :=
  let parentCtx := st.ambient
  let r := otelTracerStart st ctx spanName
  ({ r.1 with ambient := r.2.1 }, r.2.1, { sid := r.2.2, parentCtx := parentCtx })

/-- One structured log emission (slog.Record): level, message, fields. -/
structure LogRecord where
  level : Level
  msg : String
  attrs : List Attr
deriving DecidableEq, Repr

/-- The handlers' search for a field named "error" whose value is a Go error
(the r.Attrs loop with the type assertion): first such field's text. -/
def findErrAttr : List Attr → Option String
  | [] => none
  | a :: rest =>
    if a.key = "error" then
      match a.value with
      | .err m => some m
      | .str _ => findErrAttr rest
    else findErrAttr rest

/-- src log.go convertSlogAttrsToAPMAttrsFromSlice: renders every field with
attribute.String(key, value.String()). -/
def convertSlogAttrsToAPMAttrsFromSlice (attrs : List Attr) : List Attr :=
  attrs.map (fun a => { key := a.key, value := .str a.value.render })

/-- The base handler's sink write: the record goes out carrying the
handler-accumulated With-attributes followed by the record's own fields. -/
def sinkWrite (hAttrs : List Attr) (st : ObsState) (r : LogRecord) : ObsState :=
  { st with sink := st.sink ++ [{ level := r.level, msg := r.msg, attrs := hAttrs ++ r.attrs }] }

/-- The trace.id/span.id attributes the frontend-service handler stamps onto
a record under a recording span. -/
def stampAttrs (sc : SpanContext) : List Attr :=
  [⟨"trace.id", .str (toString sc.traceID)⟩, ⟨"span.id", .str (toString sc.spanID)⟩]

/-- src/frontend-service/observability/log.go APMHandler.Handle: under a
recording span, stamp trace.id/span.id onto the record, collect the handler's
With-attributes plus the record's fields, then mirror by level (error: find an
"error"-valued field or synthesize one from the message, RecordError plus
SetStatus error; info/warn: AddEvent named after the message; debug: nothing);
in every case finish with the base handler's sink write. -/
def APMHandler.Handle (hAttrs : List Attr) (st : ObsState) (ctx : GoContext)
    (r : LogRecord) : ObsState :=
  match ctx.spanCtx with
  | some sc =>
    if (activeRecordingSpan st ctx).isSome then
      let r1 : LogRecord := { r with attrs := r.attrs ++ stampAttrs sc }
      let allAttrs := hAttrs ++ r1.attrs
      let sid := sc.spanID
      let st1 :=
        if r.level = .error then
          match findErrAttr r1.attrs with
          | some emsg =>
            let apmAttrs := convertSlogAttrsToAPMAttrsFromSlice allAttrs ++
              [⟨"event", .str "log_error"⟩, ⟨"message", .str r.msg⟩]
            spanSetStatusError (spanRecordError st sid emsg apmAttrs) sid emsg
          | none =>
            let apmAttrs := convertSlogAttrsToAPMAttrsFromSlice allAttrs ++
              [⟨"event", .str "log_error"⟩]
            spanSetStatusError (spanRecordError st sid r.msg apmAttrs) sid r.msg
        else if r.level = .info ∨ r.level = .warn then
          spanAddEvent st sid r.msg (convertSlogAttrsToAPMAttrsFromSlice allAttrs)
        else st
      sinkWrite hAttrs st1 r1
    else sinkWrite hAttrs st r
  | none => sinkWrite hAttrs st r

/-- src/product/observability/log.go APMHandler.Handle: with no recording
span, just the sink write; at level >= error, RecordError the "error"-valued
field or an error synthesized from the message (no event attributes) and
SetStatus error with the MESSAGE as description; below error, AddEvent named
after the message with the record's own fields; no trace/span id stamping. -/
def ProductAPMHandler.Handle (hAttrs : List Attr) (st : ObsState) (ctx : GoContext)
    (r : LogRecord) : ObsState :=
  match activeRecordingSpan st ctx with
  | none => sinkWrite hAttrs st r
  | some sid =>
    let st1 :=
      if Level.toNat .error ≤ Level.toNat r.level then
        let emsg := (findErrAttr r.attrs).getD r.msg
        spanSetStatusError (spanRecordError st sid emsg []) sid r.msg
      else
        spanAddEvent st sid r.msg (convertSlogAttrsToAPMAttrsFromSlice r.attrs)
    sinkWrite hAttrs st1 r

/-- src log.go Log.log: consult the holder's CURRENT ambient context
(l.obs.Context()), then hand the record to the handler chain. The base JSON
handler is registered at LevelDebug, so Enabled is true at every level used. -/
def Log.log (st : ObsState) (l : Log) (lv : Level) (msg : String)
    (args : List Attr) : ObsState :=
  APMHandler.Handle l.withAttrs st st.ambient { level := lv, msg := msg, attrs := args }

/-- src log.go Log.With: a new Log value with accumulated fields, sharing the
same Observability holder, without mutating the original. -/
def Log.With (l : Log) (args : List Attr) : Log :=
  { withAttrs := l.withAttrs ++ args }

/-- A Go runtime panic relevant here. -/
inductive GoPanic where
  | nilPointerDereference
deriving DecidableEq, Repr

/-- obs.Log.Error(msg, args...): a method call through the Observability's Log
field. When that field is a Go nil pointer (as in the zero Observability),
(*Log).log dereferences l.obs in getCtx and the call panics. -/
def Observability.logError (o : Observability) (st : ObsState) (msg : String)
    (args : List Attr) : Except GoPanic ObsState :=
  match o.logP with
  | some l => .ok (Log.log st l .error msg args)
  | none => .error GoPanic.nilPointerDereference

/-- src/README.md CtxWithObs: store the handle in the context under the
private obsKey. -/
def CtxWithObs (ctx : GoContext) (obs : Observability) : GoContext :=
  { ctx with obsPtr := some obs }

/-- src/README.md ObsFromCtx: the stored handle if present, otherwise a fresh
zero-valued Observability (never a nil pointer). -/
def ObsFromCtx (ctx : GoContext) : Observability :=
  match ctx.obsPtr with
  | some obs => obs
  | none => zeroObservability

/-- src/frontend-service/main.go getTraceID: the ambient trace id, or the
sentinel "no-trace" when the context carries no span. -/
def getTraceID (ctx : GoContext) : String :=
  match ctx.spanCtx with
  | some sc => toString sc.traceID
  | none => "no-trace"

/-- src/frontend-service/main.go getSpanID: the ambient span id, or the
sentinel "no-span" when the context carries no span. -/
def getSpanID (ctx : GoContext) : String :=
  match ctx.spanCtx with
  | some sc => toString sc.spanID
  | none => "no-span"

/-- src/frontend-service/main.go getTraceSpanInfo. -/
def getTraceSpanInfo (ctx : GoContext) : String × String :=
  (getTraceID ctx, getSpanID ctx)

/-- A structured request program over the instrumentation: plain steps, a log
call, sequencing, a panic or early return, and the span bracket
`ctx, span := obs.Trace.Start(obs.Context(), name); defer span.End(); body`
used by every handler in the repository. -/
inductive Prog where
  | skip
  | panicNow
  | log (lv : Level) (msg : String) (attrs : List Attr)
  | seq (p q : Prog)
  | span (name : String) (body : Prog)

/-- Run a program. The Bool is true when execution completed normally, false
when a panic or early return cut it short; in the span case the deferred End
runs on EVERY exit path, exactly as `defer span.End()` does in Go. -/
def exec : Prog → ObsState → ObsState × Bool
  | .skip, st => (st, true)
  | .panicNow, st => (st, false)
  | .log lv m a, st => (Log.log st ⟨[]⟩ lv m a, true)
  | .seq p q, st =>
    let r := exec p st
    if r.2 then exec q r.1 else r
  | .span n body, st =>
    let r := Trace.Start st st.ambient n
    let r2 := exec body r.1
    (Span.End r2.1 r.2.2, r2.2)

/-! Helper lemmas about the span store and the state-preserving parts of the
operations. -/

theorem lookupSpan_cons_self (i : Nat) (d : SpanData) (l : List (Nat × SpanData)) :
    lookupSpan ((i, d) :: l) i = some d := by
  simp [lookupSpan]

theorem lookupSpan_updateSpan_self (l : List (Nat × SpanData)) (sid : Nat)
    (f : SpanData → SpanData) :
    lookupSpan (updateSpan l sid f) sid = (lookupSpan l sid).map f := by
  induction l with
  | nil => simp [lookupSpan, updateSpan]
  | cons hd tl ih =>
    obtain ⟨i, d⟩ := hd
    by_cases h : i = sid
    · subst h; simp [lookupSpan, updateSpan]
    · simp [lookupSpan, updateSpan, h, ih]

theorem sinkWrite_spans (hAttrs : List Attr) (st : ObsState) (r : LogRecord) :
    (sinkWrite hAttrs st r).spans = st.spans := rfl

theorem sinkWrite_ambient (hAttrs : List Attr) (st : ObsState) (r : LogRecord) :
    (sinkWrite hAttrs st r).ambient = st.ambient := rfl

theorem spanAddEvent_sink (st : ObsState) (sid : Nat) (n : String) (a : List Attr) :
    (spanAddEvent st sid n a).sink = st.sink := rfl

theorem spanRecordError_sink (st : ObsState) (sid : Nat) (m : String) (a : List Attr) :
    (spanRecordError st sid m a).sink = st.sink := rfl

theorem spanSetStatusError_sink (st : ObsState) (sid : Nat) (m : String) :
    (spanSetStatusError st sid m).sink = st.sink := rfl

theorem spanEnd_ambient (st : ObsState) (s : Span) :
    (Span.End st s).ambient = s.parentCtx := rfl

theorem traceStart_parentCtx (st : ObsState) (ctx : GoContext) (n : String) :
    ((Trace.Start st ctx n).2.2).parentCtx = st.ambient := rfl

/-- C1: for every properly nested Start/End bracket on one Observability
handle, immediately after the span's deferred End the handle's ambient
context (Observability.Context()) equals the ambient context held immediately
before the matching Start — for an arbitrary body, so also on early returns
and panics cut short inside the body, since the deferred End runs on every
exit path. -/
theorem span_end_restores_ambient (n : String) (body : Prog) (st : ObsState) :
    ((exec (Prog.span n body) st).1).ambient = st.ambient := by
  simp [exec, spanEnd_ambient, traceStart_parentCtx]

/-- C7: Trace.Start never fails (it is total), the created span's parent
linkage is exactly the TraceContext carried by the supplied context — in
particular a context with no span parent yields a root span with empty
parent, as normal behavior — the returned new ambient context carries the new
span's TraceContext, and the input context value is not mutated (the returned
context differs from it only in the span slot). -/
theorem trace_start_contract (st : ObsState) (ctx : GoContext) (n : String) :
    ∃ d : SpanData,
      lookupSpan (Trace.Start st ctx n).1.spans ((Trace.Start st ctx n).2.2).sid = some d
      ∧ d.parent = ctx.spanCtx
      ∧ ((Trace.Start st ctx n).2.1).spanCtx = some d.sc
      ∧ ((Trace.Start st ctx n).2.1).obsPtr = ctx.obsPtr := by
  exact ⟨_, lookupSpan_cons_self _ _ _, rfl, rfl, rfl⟩

/-- C10: storing a handle with CtxWithObs and reading it back with ObsFromCtx
returns exactly the stored handle; on a context in which no handle was stored,
ObsFromCtx returns the freshly constructed zero-valued Observability — whose
Trace and Log fields are nil — and by construction never a nil pointer. -/
theorem obs_ctx_roundtrip (ctx : GoContext) (obs : Observability) :
    ObsFromCtx (CtxWithObs ctx obs) = obs
    ∧ (ctx.obsPtr = none → ObsFromCtx ctx = zeroObservability)
    ∧ zeroObservability.traceP = none ∧ zeroObservability.logP = none := by
  refine ⟨rfl, ?_, rfl, rfl⟩
  intro h
  simp [ObsFromCtx, h]

/-- C10 witness: the round trip and the zero-handle case evaluated at
concrete inputs (context.Background, a handle with both fields set). -/
theorem obs_ctx_roundtrip_witness :
    GoContext.background.obsPtr = none
    ∧ ObsFromCtx (CtxWithObs GoContext.background ⟨some ⟨"svc"⟩, some ⟨[]⟩⟩)
        = ⟨some ⟨"svc"⟩, some ⟨[]⟩⟩
    ∧ ObsFromCtx GoContext.background = zeroObservability :=
  ⟨rfl, (obs_ctx_roundtrip GoContext.background ⟨some ⟨"svc"⟩, some ⟨[]⟩⟩).1,
   (obs_ctx_roundtrip GoContext.background ⟨some ⟨"svc"⟩, some ⟨[]⟩⟩).2.1 rfl⟩

/-- C8: evaluation of the code at the claim's scenario. Retrieving the handle
from a context that carries none yields the zero Observability whose Log
field is nil, and the subsequent obs.Log.Error call is a nil-pointer panic —
not the claimed no-op plus diagnostic. A double End on the same span writes
no warning to the sink (the sink stays empty): it silently re-restores the
recorded parent context and the inner SDK End ignores the second call. -/
theorem nil_log_call_panics :
    (ObsFromCtx GoContext.background).logP = none
    ∧ Observability.logError (ObsFromCtx GoContext.background) initState "boom" []
        = Except.error GoPanic.nilPointerDereference
    ∧ (Span.End (Span.End (Trace.Start initState GoContext.background "root").1
          (Trace.Start initState GoContext.background "root").2.2)
          (Trace.Start initState GoContext.background "root").2.2).sink = []
    ∧ (Span.End (Span.End (Trace.Start initState GoContext.background "root").1
          (Trace.Start initState GoContext.background "root").2.2)
          (Trace.Start initState GoContext.background "root").2.2).ambient
        = GoContext.background :=
  ⟨rfl, rfl, rfl, rfl⟩

/-- Scenario A of the spec (section 8): a root span, a first child that logs
info and ends, then a sibling child that logs an error carrying an attached
error value "not found" and ends. -/
def scenarioAProgram : Prog :=
  .span "handle-request"
    (.seq (.span "fetch-item" (.log .info "fetched item" []))
          (.span "fetch-related" (.log .error "fetch failed" [⟨"error", .err "not found"⟩])))

/-- C9: running scenario A, the child that logged the error ends with status
error "not found", while the root span (ids: 0 root, 1 first child, 2 second
child) ends with status ok — the child's error is not propagated to the
parent or root span's status. -/
theorem child_error_not_propagated_to_root :
    ((lookupSpan (exec scenarioAProgram initState).1.spans 0).map SpanData.status
        = some SpanStatus.ok)
    ∧ ((lookupSpan (exec scenarioAProgram initState).1.spans 2).map SpanData.status
        = some (SpanStatus.error "not found"))
    ∧ ((lookupSpan (exec scenarioAProgram initState).1.spans 1).map SpanData.status
        = some SpanStatus.ok) :=
  ⟨rfl, rfl, rfl⟩

theorem findErrAttr_append_stamps (l : List Attr) (sc : SpanContext) :
    findErrAttr (l ++ stampAttrs sc) = findErrAttr l := by
  induction l with
  | nil => rfl
  | cons a rest ih =>
    by_cases h : a.key = "error"
    · cases hv : a.value <;> simp [findErrAttr, h, hv, ih]
    · simp [findErrAttr, h, ih]

theorem activeRecordingSpan_eq (st : ObsState) (ctx : GoContext) (sc : SpanContext)
    (d : SpanData) (hsc : ctx.spanCtx = some sc)
    (hd : lookupSpan st.spans sc.spanID = some d) (hrec : d.recording = true) :
    activeRecordingSpan st ctx = some sc.spanID := by
  simp [activeRecordingSpan, hsc, hd, hrec]

theorem lookupSpan_spanRecordError_self (st : ObsState) (sid : Nat) (m : String)
    (a : List Attr) :
    lookupSpan (spanRecordError st sid m a).spans sid
      = (lookupSpan st.spans sid).map (fun d =>
          if d.recording then
            { d with recordedErrors := d.recordedErrors ++ [⟨m, a⟩] }
          else d) := by
  simp [spanRecordError, lookupSpan_updateSpan_self]

theorem lookupSpan_spanSetStatusError_self (st : ObsState) (sid : Nat) (m : String) :
    lookupSpan (spanSetStatusError st sid m).spans sid
      = (lookupSpan st.spans sid).map (fun d =>
          if d.recording then
            match d.status with
            | .ok => d
            | _ => { d with status := .error m }
          else d) := by
  simp [spanSetStatusError, lookupSpan_updateSpan_self]

theorem lookupSpan_spanAddEvent_self (st : ObsState) (sid : Nat) (n : String)
    (a : List Attr) :
    lookupSpan (spanAddEvent st sid n a).spans sid
      = (lookupSpan st.spans sid).map (fun d =>
          if d.recording then { d with events := d.events ++ [⟨n, a⟩] } else d) := by
  simp [spanAddEvent, lookupSpan_updateSpan_self]

/-- The error description the frontend-service handler derives from an
error-level record: the attached "error" field's text when present, otherwise
the log message (the synthesized error). -/
def fsErrorDesc (r : LogRecord) : String := (findErrAttr r.attrs).getD r.msg

theorem fs_handle_error_span (hA : List Attr) (st : ObsState) (ctx : GoContext)
    (sc : SpanContext) (d : SpanData) (r : LogRecord)
    (hsc : ctx.spanCtx = some sc) (hd : lookupSpan st.spans sc.spanID = some d)
    (hrec : d.recording = true) (hok : d.status ≠ .ok) (hlvl : r.level = .error) :
    ∃ e : SpanData,
      lookupSpan (APMHandler.Handle hA st ctx r).spans sc.spanID = some e
      ∧ e.status = .error (fsErrorDesc r)
      ∧ e.recordedErrors.map ErrorRecord.description
          = d.recordedErrors.map ErrorRecord.description ++ [fsErrorDesc r]
      ∧ e.recording = true := by
  have hact := activeRecordingSpan_eq st ctx sc d hsc hd hrec
  cases heq : findErrAttr r.attrs with
  | some m =>
    cases hds : d.status with
    | ok => exact absurd hds hok
    | unset =>
      simp [APMHandler.Handle, hsc, hact, hlvl, findErrAttr_append_stamps, heq,
        sinkWrite_spans, lookupSpan_spanSetStatusError_self,
        lookupSpan_spanRecordError_self, hd, hrec, hds, fsErrorDesc]
    | error m2 =>
      simp [APMHandler.Handle, hsc, hact, hlvl, findErrAttr_append_stamps, heq,
        sinkWrite_spans, lookupSpan_spanSetStatusError_self,
        lookupSpan_spanRecordError_self, hd, hrec, hds, fsErrorDesc]
  | none =>
    cases hds : d.status with
    | ok => exact absurd hds hok
    | unset =>
      simp [APMHandler.Handle, hsc, hact, hlvl, findErrAttr_append_stamps, heq,
        sinkWrite_spans, lookupSpan_spanSetStatusError_self,
        lookupSpan_spanRecordError_self, hd, hrec, hds, fsErrorDesc]
    | error m2 =>
      simp [APMHandler.Handle, hsc, hact, hlvl, findErrAttr_append_stamps, heq,
        sinkWrite_spans, lookupSpan_spanSetStatusError_self,
        lookupSpan_spanRecordError_self, hd, hrec, hds, fsErrorDesc]

theorem prod_handle_error_span (hA : List Attr) (st : ObsState) (ctx : GoContext)
    (sc : SpanContext) (d : SpanData) (r : LogRecord)
    (hsc : ctx.spanCtx = some sc) (hd : lookupSpan st.spans sc.spanID = some d)
    (hrec : d.recording = true) (hok : d.status ≠ .ok)
    (hlvl : Level.toNat .error ≤ Level.toNat r.level) :
    ∃ e : SpanData,
      lookupSpan (ProductAPMHandler.Handle hA st ctx r).spans sc.spanID = some e
      ∧ e.status = .error r.msg
      ∧ e.recordedErrors.map ErrorRecord.description
          = d.recordedErrors.map ErrorRecord.description ++ [fsErrorDesc r]
      ∧ e.recording = true := by
  have hact := activeRecordingSpan_eq st ctx sc d hsc hd hrec
  cases hds : d.status with
  | ok => exact absurd hds hok
  | unset =>
    simp [ProductAPMHandler.Handle, hact, hlvl, sinkWrite_spans,
      lookupSpan_spanSetStatusError_self, lookupSpan_spanRecordError_self,
      hd, hrec, hds, fsErrorDesc]
  | error m2 =>
    simp [ProductAPMHandler.Handle, hact, hlvl, sinkWrite_spans,
      lookupSpan_spanSetStatusError_self, lookupSpan_spanRecordError_self,
      hd, hrec, hds, fsErrorDesc]

theorem spanAddEvent_ambient (st : ObsState) (sid : Nat) (n : String) (a : List Attr) :
    (spanAddEvent st sid n a).ambient = st.ambient := rfl

theorem spanRecordError_ambient (st : ObsState) (sid : Nat) (m : String) (a : List Attr) :
    (spanRecordError st sid m a).ambient = st.ambient := rfl

theorem spanSetStatusError_ambient (st : ObsState) (sid : Nat) (m : String) :
    (spanSetStatusError st sid m).ambient = st.ambient := rfl

theorem fs_handle_ambient (hA : List Attr) (st : ObsState) (ctx : GoContext)
    (r : LogRecord) :
    (APMHandler.Handle hA st ctx r).ambient = st.ambient := by
  unfold APMHandler.Handle
  split
  · split
    · dsimp only
      split
      · split <;> rfl
      · split <;> rfl
    · rfl
  · rfl

/-- The state right after starting a root span named "root" from the initial
state; used as concrete input by several witnesses. -/
def startedState : ObsState := (Trace.Start initState GoContext.background "root").1

/-- The new ambient context returned by that Start. -/
def startedCtx : GoContext := (Trace.Start initState GoContext.background "root").2.1

/-- C2 counterexample: an error-level log call with an empty message and no
attached error value, made under an active recording span, leaves the span's
status error with an EMPTY description — refuting the claim that every
error-level log call yields a non-empty recorded error description. -/
theorem error_log_empty_description_cex :
    (lookupSpan (APMHandler.Handle [] startedState startedCtx
        ⟨Level.error, "", []⟩).spans 0).map SpanData.status
      = some (SpanStatus.error "")
    ∧ (lookupSpan (APMHandler.Handle [] startedState startedCtx
        ⟨Level.error, "", []⟩).spans 0).map
          (fun d => d.recordedErrors.map ErrorRecord.description)
      = some [""] :=
  ⟨rfl, rfl⟩

/-- C2 (amended): for every error-level log call made through the Correlated
Logger while a span is active and recording, the span's status afterwards is
error and the derived error description — the attached error value's text
when present, otherwise the log message — is recorded; the description is
non-empty provided that derived text is non-empty (which the original claim
implicitly assumed and which fails for an empty message with no error field).
Logging a second error in sequence leaves the status error after both calls,
never reverting it to ok; the product-variant handler behaves the same with
the record's message as the status description. -/
theorem error_log_error_status_idempotent (hA : List Attr) (st : ObsState)
    (ctx : GoContext) (sc : SpanContext) (d : SpanData) (r1 r2 : LogRecord)
    (hsc : ctx.spanCtx = some sc) (hd : lookupSpan st.spans sc.spanID = some d)
    (hrec : d.recording = true) (hok : d.status ≠ .ok)
    (h1 : r1.level = .error) (h2 : r2.level = .error)
    (hm1 : r1.msg ≠ "") (hm2 : r2.msg ≠ "")
    (hne1 : fsErrorDesc r1 ≠ "") (hne2 : fsErrorDesc r2 ≠ "") :
    (∃ e, lookupSpan (APMHandler.Handle hA st ctx r1).spans sc.spanID = some e
       ∧ e.status = .error (fsErrorDesc r1) ∧ fsErrorDesc r1 ≠ "")
    ∧ (∃ e, lookupSpan (APMHandler.Handle hA (APMHandler.Handle hA st ctx r1) ctx r2).spans
          sc.spanID = some e
       ∧ e.status = .error (fsErrorDesc r2) ∧ fsErrorDesc r2 ≠ "")
    ∧ (∃ e, lookupSpan (ProductAPMHandler.Handle hA st ctx r1).spans sc.spanID = some e
       ∧ e.status = .error r1.msg ∧ r1.msg ≠ "")
    ∧ (∃ e, lookupSpan (ProductAPMHandler.Handle hA (ProductAPMHandler.Handle hA st ctx r1)
          ctx r2).spans sc.spanID = some e
       ∧ e.status = .error r2.msg ∧ r2.msg ≠ "") := by
  obtain ⟨e1, he1, hs1, _, hr1⟩ := fs_handle_error_span hA st ctx sc d r1 hsc hd hrec hok h1
  have hok1 : e1.status ≠ .ok := by rw [hs1]; intro hcontra; cases hcontra
  obtain ⟨e2, he2, hs2, _, _⟩ :=
    fs_handle_error_span hA (APMHandler.Handle hA st ctx r1) ctx sc e1 r2 hsc he1 hr1 hok1 h2
  obtain ⟨p1, hp1, hps1, _, hpr1⟩ :=
    prod_handle_error_span hA st ctx sc d r1 hsc hd hrec hok (by rw [h1])
  have hpok1 : p1.status ≠ .ok := by rw [hps1]; intro hcontra; cases hcontra
  obtain ⟨p2, hp2, hps2, _, _⟩ :=
    prod_handle_error_span hA (ProductAPMHandler.Handle hA st ctx r1) ctx sc p1 r2 hsc hp1
      hpr1 hpok1 (by rw [h2])
  exact ⟨⟨e1, he1, hs1, hne1⟩, ⟨e2, he2, hs2, hne2⟩, ⟨p1, hp1, hps1, hm1⟩,
    ⟨p2, hp2, hps2, hm2⟩⟩

/-- C2 witness: the amended theorem applied to a freshly started root span
with two concrete error records (the second carrying an attached error value
"not found"), every hypothesis discharged by evaluation. -/
theorem error_log_error_status_idempotent_witness :
    startedCtx.spanCtx = some ⟨0, 0⟩
    ∧ lookupSpan startedState.spans 0
        = some ⟨"root", none, ⟨0, 0⟩, true, false, .unset, [], []⟩
    ∧ fsErrorDesc ⟨Level.error, "first failure", []⟩ ≠ ""
    ∧ fsErrorDesc ⟨Level.error, "second failure", [⟨"error", AttrValue.err "not found"⟩]⟩ ≠ ""
    ∧ ((∃ e, lookupSpan (APMHandler.Handle [] startedState startedCtx
            ⟨Level.error, "first failure", []⟩).spans (SpanContext.mk 0 0).spanID = some e
          ∧ e.status = .error (fsErrorDesc ⟨Level.error, "first failure", []⟩)
          ∧ fsErrorDesc ⟨Level.error, "first failure", []⟩ ≠ "")
       ∧ (∃ e, lookupSpan (APMHandler.Handle [] (APMHandler.Handle [] startedState startedCtx
            ⟨Level.error, "first failure", []⟩) startedCtx
            ⟨Level.error, "second failure", [⟨"error", AttrValue.err "not found"⟩]⟩).spans
            (SpanContext.mk 0 0).spanID = some e
          ∧ e.status = .error (fsErrorDesc
              ⟨Level.error, "second failure", [⟨"error", AttrValue.err "not found"⟩]⟩)
          ∧ fsErrorDesc ⟨Level.error, "second failure",
              [⟨"error", AttrValue.err "not found"⟩]⟩ ≠ "")
       ∧ (∃ e, lookupSpan (ProductAPMHandler.Handle [] startedState startedCtx
            ⟨Level.error, "first failure", []⟩).spans (SpanContext.mk 0 0).spanID = some e
          ∧ e.status = .error (LogRecord.mk Level.error "first failure" []).msg
          ∧ (LogRecord.mk Level.error "first failure" []).msg ≠ "")
       ∧ (∃ e, lookupSpan (ProductAPMHandler.Handle []
            (ProductAPMHandler.Handle [] startedState startedCtx
              ⟨Level.error, "first failure", []⟩) startedCtx
            ⟨Level.error, "second failure", [⟨"error", AttrValue.err "not found"⟩]⟩).spans
            (SpanContext.mk 0 0).spanID = some e
          ∧ e.status = .error (LogRecord.mk Level.error "second failure"
              [⟨"error", AttrValue.err "not found"⟩]).msg
          ∧ (LogRecord.mk Level.error "second failure"
              [⟨"error", AttrValue.err "not found"⟩]).msg ≠ "")) :=
  ⟨rfl, rfl, by decide, by decide,
   error_log_error_status_idempotent [] startedState startedCtx ⟨0, 0⟩
     ⟨"root", none, ⟨0, 0⟩, true, false, .unset, [], []⟩
     ⟨Level.error, "first failure", []⟩
     ⟨Level.error, "second failure", [⟨"error", AttrValue.err "not found"⟩]⟩
     rfl rfl rfl (by decide) rfl rfl (by decide) (by decide) (by decide) (by decide)⟩

/-- C4: for every error-level log call whose fields contain no "error"-named
field holding an error value, both handler variants synthesize an error from
the log message text and record it on the active recording span: an error
record whose description equals the log message is appended (so no
error-level log under an active span is dropped from the trace) and the span
status becomes error with the message as description. -/
theorem synthesized_error_from_message (hA : List Attr) (st : ObsState)
    (ctx : GoContext) (sc : SpanContext) (d : SpanData) (r : LogRecord)
    (hsc : ctx.spanCtx = some sc) (hd : lookupSpan st.spans sc.spanID = some d)
    (hrec : d.recording = true) (hok : d.status ≠ .ok) (hlvl : r.level = .error)
    (hnoerr : findErrAttr r.attrs = none) :
    (∃ e, lookupSpan (APMHandler.Handle hA st ctx r).spans sc.spanID = some e
       ∧ e.status = .error r.msg
       ∧ e.recordedErrors.map ErrorRecord.description
           = d.recordedErrors.map ErrorRecord.description ++ [r.msg])
    ∧ (∃ e, lookupSpan (ProductAPMHandler.Handle hA st ctx r).spans sc.spanID = some e
       ∧ e.status = .error r.msg
       ∧ e.recordedErrors.map ErrorRecord.description
           = d.recordedErrors.map ErrorRecord.description ++ [r.msg]) := by
  have hdesc : fsErrorDesc r = r.msg := by simp [fsErrorDesc, hnoerr]
  obtain ⟨e1, he1, hs1, herr1, _⟩ := fs_handle_error_span hA st ctx sc d r hsc hd hrec hok hlvl
  obtain ⟨p1, hp1, hps1, hperr1, _⟩ :=
    prod_handle_error_span hA st ctx sc d r hsc hd hrec hok (by rw [hlvl])
  rw [hdesc] at hs1 herr1 hperr1
  exact ⟨⟨e1, he1, hs1, herr1⟩, ⟨p1, hp1, hps1, hperr1⟩⟩

/-- C4 witness: the theorem applied to a freshly started root span and the
spec's scenario B record — level error, message "missing identifier", no
error-valued field; the recorded description equals "missing identifier". -/
theorem synthesized_error_from_message_witness :
    startedCtx.spanCtx = some ⟨0, 0⟩
    ∧ findErrAttr [⟨"user.id", AttrValue.str "u1"⟩] = none
    ∧ ((∃ e, lookupSpan (APMHandler.Handle [] startedState startedCtx
          ⟨Level.error, "missing identifier", [⟨"user.id", AttrValue.str "u1"⟩]⟩).spans
          (SpanContext.mk 0 0).spanID = some e
        ∧ e.status = .error (LogRecord.mk Level.error "missing identifier"
            [⟨"user.id", AttrValue.str "u1"⟩]).msg
        ∧ e.recordedErrors.map ErrorRecord.description
            = (SpanData.mk "root" none ⟨0, 0⟩ true false .unset [] []).recordedErrors.map
                ErrorRecord.description
              ++ [(LogRecord.mk Level.error "missing identifier"
                  [⟨"user.id", AttrValue.str "u1"⟩]).msg])
      ∧ (∃ e, lookupSpan (ProductAPMHandler.Handle [] startedState startedCtx
          ⟨Level.error, "missing identifier", [⟨"user.id", AttrValue.str "u1"⟩]⟩).spans
          (SpanContext.mk 0 0).spanID = some e
        ∧ e.status = .error (LogRecord.mk Level.error "missing identifier"
            [⟨"user.id", AttrValue.str "u1"⟩]).msg
        ∧ e.recordedErrors.map ErrorRecord.description
            = (SpanData.mk "root" none ⟨0, 0⟩ true false .unset [] []).recordedErrors.map
                ErrorRecord.description
              ++ [(LogRecord.mk Level.error "missing identifier"
                  [⟨"user.id", AttrValue.str "u1"⟩]).msg])) :=
  ⟨rfl, by decide,
   synthesized_error_from_message [] startedState startedCtx ⟨0, 0⟩
     ⟨"root", none, ⟨0, 0⟩, true, false, .unset, [], []⟩
     ⟨Level.error, "missing identifier", [⟨"user.id", AttrValue.str "u1"⟩]⟩
     rfl rfl rfl (by decide) rfl (by decide)⟩

theorem fs_handle_event_span (hA : List Attr) (st : ObsState) (ctx : GoContext)
    (sc : SpanContext) (d : SpanData) (r : LogRecord)
    (hsc : ctx.spanCtx = some sc) (hd : lookupSpan st.spans sc.spanID = some d)
    (hrec : d.recording = true) (hlvl : r.level = .info ∨ r.level = .warn) :
    ∃ e : SpanData,
      lookupSpan (APMHandler.Handle hA st ctx r).spans sc.spanID = some e
      ∧ e.events = d.events ++
          [⟨r.msg, convertSlogAttrsToAPMAttrsFromSlice (hA ++ (r.attrs ++ stampAttrs sc))⟩]
      ∧ e.status = d.status
      ∧ e.recording = true := by
  have hact := activeRecordingSpan_eq st ctx sc d hsc hd hrec
  have hne : r.level ≠ .error := by rcases hlvl with h | h <;> rw [h] <;> intro hc <;> cases hc
  simp [APMHandler.Handle, hsc, hact, hne, hlvl, sinkWrite_spans,
    lookupSpan_spanAddEvent_self, hd, hrec]

theorem fs_handle_debug_span (hA : List Attr) (st : ObsState) (ctx : GoContext)
    (sc : SpanContext) (r : LogRecord)
    (hsc : ctx.spanCtx = some sc)
    (hact : (activeRecordingSpan st ctx).isSome = true)
    (hlvl : r.level = .debug) :
    (APMHandler.Handle hA st ctx r).spans = st.spans
    ∧ (APMHandler.Handle hA st ctx r).sink
        = st.sink ++ [⟨r.level, r.msg, hA ++ (r.attrs ++ stampAttrs sc)⟩] := by
  have h1 : r.level ≠ .error := by rw [hlvl]; intro hc; cases hc
  have h2 : ¬(r.level = .info ∨ r.level = .warn) := by
    rw [hlvl]; rintro (hc | hc) <;> cases hc
  constructor <;> simp [APMHandler.Handle, hsc, hact, h1, h2, sinkWrite]

theorem prod_handle_event_span (hA : List Attr) (st : ObsState) (ctx : GoContext)
    (sc : SpanContext) (d : SpanData) (r : LogRecord)
    (hsc : ctx.spanCtx = some sc) (hd : lookupSpan st.spans sc.spanID = some d)
    (hrec : d.recording = true) (hlvl : Level.toNat r.level < Level.toNat .error) :
    ∃ e : SpanData,
      lookupSpan (ProductAPMHandler.Handle hA st ctx r).spans sc.spanID = some e
      ∧ e.events = d.events ++ [⟨r.msg, convertSlogAttrsToAPMAttrsFromSlice r.attrs⟩]
      ∧ e.recording = true := by
  have hact := activeRecordingSpan_eq st ctx sc d hsc hd hrec
  have hn : ¬ Level.toNat .error ≤ Level.toNat r.level := by omega
  simp [ProductAPMHandler.Handle, hact, hn, sinkWrite_spans,
    lookupSpan_spanAddEvent_self, hd, hrec]

/-- C5 counterexample: a debug-level call through the product-variant handler
under an active recording span DOES mirror onto the span — it adds a span
event named after the message — refuting the claim that a debug-level call
yields no span mirroring at all. -/
theorem debug_no_mirroring_cex :
    (lookupSpan (ProductAPMHandler.Handle [] startedState startedCtx
        ⟨Level.debug, "dbg detail", []⟩).spans 0).map SpanData.events
      = some [⟨"dbg detail", []⟩] := rfl

/-- C5 (amended): through the frontend-service handler, a warn-level call
under an active recording span writes to the sink and adds a span event named
after the log message carrying the accumulated fields (With-attributes, the
record's fields and the trace/span stamps) as event attributes; an info-level
call yields a span event likewise; a debug-level call yields no span
mirroring at all, only the sink write. The product-variant handler, which
separates only error from sub-error levels, mirrors debug-level calls as span
events too. -/
theorem warn_info_event_debug_behavior (hA : List Attr) (st : ObsState)
    (ctx : GoContext) (sc : SpanContext) (d : SpanData) (r : LogRecord)
    (hsc : ctx.spanCtx = some sc) (hd : lookupSpan st.spans sc.spanID = some d)
    (hrec : d.recording = true) :
    (r.level = .warn ∨ r.level = .info →
      ∃ e, lookupSpan (APMHandler.Handle hA st ctx r).spans sc.spanID = some e
        ∧ e.events = d.events ++
            [⟨r.msg, convertSlogAttrsToAPMAttrsFromSlice (hA ++ (r.attrs ++ stampAttrs sc))⟩])
    ∧ (r.level = .debug →
      (APMHandler.Handle hA st ctx r).spans = st.spans
      ∧ (APMHandler.Handle hA st ctx r).sink
          = st.sink ++ [⟨r.level, r.msg, hA ++ (r.attrs ++ stampAttrs sc)⟩])
    ∧ (r.level = .debug →
      ∃ e, lookupSpan (ProductAPMHandler.Handle hA st ctx r).spans sc.spanID = some e
        ∧ e.events = d.events ++ [⟨r.msg, convertSlogAttrsToAPMAttrsFromSlice r.attrs⟩]) := by
  refine ⟨?_, ?_, ?_⟩
  · intro hlvl
    obtain ⟨e, he, hev, _, _⟩ :=
      fs_handle_event_span hA st ctx sc d r hsc hd hrec (Or.symm hlvl)
    exact ⟨e, he, hev⟩
  · intro hlvl
    exact fs_handle_debug_span hA st ctx sc r hsc
      (by rw [activeRecordingSpan_eq st ctx sc d hsc hd hrec]; rfl) hlvl
  · intro hlvl
    obtain ⟨e, he, hev, _⟩ :=
      prod_handle_event_span hA st ctx sc d r hsc hd hrec (by rw [hlvl]; decide)
    exact ⟨e, he, hev⟩

/-- C5 witness: the amended theorem applied to a freshly started root span
and a concrete warn record, a concrete debug record, with each hypothesis
evaluated. -/
theorem warn_info_event_debug_behavior_witness :
    startedCtx.spanCtx = some ⟨0, 0⟩
    ∧ (LogRecord.mk Level.warn "careful" [⟨"k", AttrValue.str "v"⟩]).level = .warn
    ∧ (∃ e, lookupSpan (APMHandler.Handle [] startedState startedCtx
          ⟨Level.warn, "careful", [⟨"k", AttrValue.str "v"⟩]⟩).spans
          (SpanContext.mk 0 0).spanID = some e
        ∧ e.events = (SpanData.mk "root" none ⟨0, 0⟩ true false .unset [] []).events ++
            [⟨(LogRecord.mk Level.warn "careful" [⟨"k", AttrValue.str "v"⟩]).msg,
              convertSlogAttrsToAPMAttrsFromSlice
                ([] ++ ([⟨"k", AttrValue.str "v"⟩] ++ stampAttrs ⟨0, 0⟩))⟩])
    ∧ ((APMHandler.Handle [] startedState startedCtx
          ⟨Level.debug, "dbg", []⟩).spans = startedState.spans
        ∧ (APMHandler.Handle [] startedState startedCtx
            ⟨Level.debug, "dbg", []⟩).sink
          = startedState.sink ++ [⟨Level.debug, "dbg", [] ++ ([] ++ stampAttrs ⟨0, 0⟩)⟩]) :=
  ⟨rfl, rfl,
   (warn_info_event_debug_behavior [] startedState startedCtx ⟨0, 0⟩
      ⟨"root", none, ⟨0, 0⟩, true, false, .unset, [], []⟩
      ⟨Level.warn, "careful", [⟨"k", AttrValue.str "v"⟩]⟩
      rfl rfl rfl).1 (Or.inl rfl),
   (warn_info_event_debug_behavior [] startedState startedCtx ⟨0, 0⟩
      ⟨"root", none, ⟨0, 0⟩, true, false, .unset, [], []⟩
      ⟨Level.debug, "dbg", []⟩
      rfl rfl rfl).2.1 rfl⟩

theorem fs_handle_sink_recording (hA : List Attr) (st : ObsState) (ctx : GoContext)
    (sc : SpanContext) (r : LogRecord)
    (hsc : ctx.spanCtx = some sc)
    (hact : (activeRecordingSpan st ctx).isSome = true) :
    (APMHandler.Handle hA st ctx r).sink
      = st.sink ++ [⟨r.level, r.msg, hA ++ (r.attrs ++ stampAttrs sc)⟩] := by
  by_cases h1 : r.level = .error
  · simp only [APMHandler.Handle, hsc, hact, if_true, h1]
    split <;> simp [sinkWrite, spanSetStatusError_sink, spanRecordError_sink]
  · by_cases h2 : r.level = .info ∨ r.level = .warn <;>
      simp [APMHandler.Handle, hsc, hact, h1, h2, sinkWrite, spanAddEvent_sink]

/-- C3 counterexample: a log call made through the Correlated Logger while no
span is active produces a sink record that carries NO trace/span identifiers
at all — neither real ids nor the sentinel "no-trace"/"no-span" values —
refuting the claim that every sink write includes them (with sentinels when
no span is active). -/
theorem sink_sentinel_cex :
    (APMHandler.Handle [] initState GoContext.background
        ⟨Level.info, "hello", []⟩).sink
      = [⟨Level.info, "hello", []⟩]
    ∧ ((APMHandler.Handle [] initState GoContext.background
        ⟨Level.info, "hello", []⟩).sink.any (fun rec =>
          rec.attrs.any (fun a => a.key == "trace.id" || a.key == "span.id"
            || a.value == AttrValue.str "no-trace" || a.value == AttrValue.str "no-span")))
      = false :=
  ⟨rfl, rfl⟩

/-- C3 (amended): a sink write made through the Correlated Logger includes
the ambient trace id and span id only while a span is active and recording;
when the context carries no span, mirroring is skipped, the sink write still
happens unconditionally and the call does not raise (the handler is a total
function), but the record carries no trace/span identifiers — the sentinel
"no-trace"/"no-span" values are produced by the separate getTraceSpanInfo
helper used on the plain-log path, not by the Correlated Logger's sink
writes. -/
theorem sink_stamping_behavior (hA : List Attr) (st : ObsState) (ctx : GoContext)
    (r : LogRecord) :
    (∀ sc, ctx.spanCtx = some sc → (activeRecordingSpan st ctx).isSome = true →
      (APMHandler.Handle hA st ctx r).sink
        = st.sink ++ [⟨r.level, r.msg, hA ++ (r.attrs ++ stampAttrs sc)⟩])
    ∧ (ctx.spanCtx = none →
      (APMHandler.Handle hA st ctx r).sink
          = st.sink ++ [⟨r.level, r.msg, hA ++ r.attrs⟩]
      ∧ (APMHandler.Handle hA st ctx r).spans = st.spans
      ∧ getTraceSpanInfo ctx = ("no-trace", "no-span")) := by
  constructor
  · intro sc hsc hact
    exact fs_handle_sink_recording hA st ctx sc r hsc hact
  · intro hnone
    refine ⟨?_, ?_, ?_⟩
    · simp [APMHandler.Handle, hnone, sinkWrite]
    · simp [APMHandler.Handle, hnone, sinkWrite]
    · simp [getTraceSpanInfo, getTraceID, getSpanID, hnone]

/-- C3 witness: the amended theorem applied once under a freshly started
recording span (the sink write is stamped with its ids) and once at the
background context (unstamped sink write, mirroring skipped, sentinels from
getTraceSpanInfo). -/
theorem sink_stamping_behavior_witness :
    startedCtx.spanCtx = some ⟨0, 0⟩
    ∧ (activeRecordingSpan startedState startedCtx).isSome = true
    ∧ (APMHandler.Handle [] startedState startedCtx
          ⟨Level.info, "hello", [⟨"k", AttrValue.str "v"⟩]⟩).sink
        = startedState.sink
          ++ [⟨Level.info, "hello", [] ++ ([⟨"k", AttrValue.str "v"⟩] ++ stampAttrs ⟨0, 0⟩)⟩]
    ∧ GoContext.background.spanCtx = none
    ∧ ((APMHandler.Handle [] initState GoContext.background
          ⟨Level.info, "hello", [⟨"k", AttrValue.str "v"⟩]⟩).sink
        = initState.sink ++ [⟨Level.info, "hello", [] ++ [⟨"k", AttrValue.str "v"⟩]⟩]
      ∧ (APMHandler.Handle [] initState GoContext.background
          ⟨Level.info, "hello", [⟨"k", AttrValue.str "v"⟩]⟩).spans = initState.spans
      ∧ getTraceSpanInfo GoContext.background = ("no-trace", "no-span")) :=
  ⟨rfl, rfl,
   (sink_stamping_behavior [] startedState startedCtx
      ⟨Level.info, "hello", [⟨"k", AttrValue.str "v"⟩]⟩).1 ⟨0, 0⟩ rfl rfl,
   rfl,
   (sink_stamping_behavior [] initState GoContext.background
      ⟨Level.info, "hello", [⟨"k", AttrValue.str "v"⟩]⟩).2 rfl⟩

/-- C6: the handle's Log consults the handle's CURRENT ambient context at the
time of each call, not a context snapshotted at construction. For every
logger derived via With: a log call made right after Trace.Start mirrors onto
the newly started span (its event list, empty at creation, holds exactly the
logged message afterwards) and leaves the holder's ambient context at the new
context; and a log call made after that span's End hands its record to the
handler at the RESTORED pre-Start ambient context. -/
theorem log_consults_current_ambient (st : ObsState) (l : Log)
    (extra args args2 : List Attr) (n msg msg2 : String) (lv2 : Level) :
    ((lookupSpan (Log.log (Trace.Start st st.ambient n).1 (Log.With l extra)
          .info msg args).spans
        ((Trace.Start st st.ambient n).2.2).sid).map
          (fun e => e.events.map SpanEvent.name)
      = some [msg])
    ∧ ((Log.log (Trace.Start st st.ambient n).1 (Log.With l extra) .info msg args).ambient
      = (Trace.Start st st.ambient n).2.1)
    ∧ (∀ st2 : ObsState,
        Log.log (Span.End st2 (Trace.Start st st.ambient n).2.2) (Log.With l extra)
            lv2 msg2 args2
          = APMHandler.Handle (Log.With l extra).withAttrs
              (Span.End st2 (Trace.Start st st.ambient n).2.2) st.ambient
              ⟨lv2, msg2, args2⟩) := by
  refine ⟨?_, ?_, fun st2 => rfl⟩
  · simp [Log.log, APMHandler.Handle, Trace.Start, otelTracerStart, activeRecordingSpan,
      lookupSpan_cons_self, lookupSpan_spanAddEvent_self, sinkWrite_spans, lookupSpan]
  · rw [Log.log, fs_handle_ambient]
    rfl
